import Mathlib

/-!
Verification development for the `aapelix/downloader` crate.

The Rust data model and the pure parts of the algorithms are embedded
shallowly: Rust structs become Lean structures, machine integers become
`Nat`/`Int`, fallible or panicking code returns `Option`/`Except`, and the
external collaborators (HTTP fetching, the `chksum` hashing crate, the
download engine's I/O) are passed in as explicit parameters or input lists.
-/

namespace Downloader

/-- Embeds `serde_json::Value` (only carried around, never inspected by the
code under study). -/
inductive Value where
  | null : Value
  | bool : Bool → Value
  | num : Int → Value
  | str : String → Value
  | arr : List Value → Value
  | obj : List (String × Value) → Value

/-- Embeds `manifest.rs` struct `ManifestAssetIndex` (`size`, `total_size`
are `i32`). -/
structure ManifestAssetIndex where
  id : String
  sha1 : String
  size : Int
  total_size : Int
  url : String

/-- Embeds `manifest.rs` struct `ManifestComponent`. -/
structure ManifestComponent where
  component : String
  major_version : Int

/-- Embeds `manifest.rs` struct `ManifestFile` (`size` is `u64`). -/
structure ManifestFile where
  path : Option String
  sha1 : String
  size : Nat
  url : String

/-- Embeds `manifest.rs` struct `ManifestDownloads`. -/
structure ManifestDownloads where
  client : ManifestFile
  client_mappings : Option ManifestFile
  server : ManifestFile
  server_mappings : Option ManifestFile

/-- Embeds `manifest.rs` struct `ManifestRule`; the `HashMap`s become
association lists. -/
structure ManifestRule where
  action : String
  os : Option (List (String × String))
  features : Option (List (String × Value))

/-- Embeds `manifest.rs` struct `ManifestLibraryDownloads`. -/
structure ManifestLibraryDownloads where
  artifact : Option ManifestFile

/-- Embeds `manifest.rs` struct `ManifestLibrary`. -/
structure ManifestLibrary where
  downloads : ManifestLibraryDownloads
  name : String
  rules : Option (List ManifestRule)

/-- Embeds `manifest.rs` struct `FabricManifestLibrary`. -/
structure FabricManifestLibrary where
  name : String
  url : String
  sha1 : Option String
  size : Option Nat

/-- Embeds `manifest.rs` struct `Os`. -/
structure Os where
  arch : Option String
  name : Option String
  version : Option String

/-- Embeds `manifest.rs` struct `Features`. -/
structure Features where
  is_demo_user : Option Bool
  has_custom_resolution : Option Bool
  is_quick_play_realms : Option Bool

/-- Embeds `manifest.rs` struct `Rules` (the variant used inside launch
arguments). -/
structure Rules where
  action : String
  features : Option Features
  os : Option Os

/-- Embeds `manifest.rs` enum `JvmArgument`. -/
inductive JvmArgument where
  | str : String → JvmArgument
  | struct : List Rules → Value → JvmArgument

/-- Embeds `manifest.rs` enum `VersionType`. -/
inductive VersionType where
  | Release : VersionType
  | Snapshot : VersionType
  | OldBeta : VersionType
  | OldAlpha : VersionType
deriving DecidableEq

/-- Embeds `manifest.rs` struct `Arguments`. -/
structure Arguments where
  game : List JvmArgument
  jvm : List JvmArgument

/-- Embeds `manifest.rs` struct `Manifest` (`compliance_level` and
`minimum_launcher_version` are `i8`). -/
structure Manifest where
  arguments : Arguments
  asset_index : ManifestAssetIndex
  assets : String
  compliance_level : Int
  downloads : ManifestDownloads
  id : String
  java_version : ManifestComponent
  libraries : List ManifestLibrary
  main_class : String
  minimum_launcher_version : Int
  release_time : String
  time : String
  type_ : VersionType

/-- Embeds `manifest.rs` struct `FabricManifest`. -/
structure FabricManifest where
  arguments : Arguments
  inherits_from : String
  id : String
  libraries : List FabricManifestLibrary
  main_class : String
  release_time : String
  time : String
  type_ : VersionType

/-- Splits a character list at every occurrence of `sep`; embeds Rust's
`str::split(sep).collect::<Vec<_>>()` (so the empty string yields one empty
segment, and separators at the ends yield empty segments). -/
def splitChar (sep : Char) : List Char → List (List Char)
  | [] => [[]]
  | c :: rest =>
    if c = sep then [] :: splitChar sep rest
    else
      match splitChar sep rest with
      | [] => [[c]]
      | s :: ss => (c :: s) :: ss

/-- Embeds Rust's `str::split(sep)` over `String`. -/
def rustSplit (sep : Char) (s : String) : List String :=
  (splitChar sep s.data).map String.mk

/-- Embeds Rust's `str::replace(from, to)` for a one-character pattern and a
one-character replacement, as used by `maven_to_path` (`replace('.', "/")`). -/
def rustReplaceChar (f t : Char) (s : String) : String :=
  ⟨s.data.map fun c => if c = f then t else c⟩

/-- Embeds `manifest.rs` fn `maven_to_path`. The Rust function panics on a
coordinate that does not split into exactly three segments; the panic is
embedded as `none`. The format string writes, in order: group (dots
replaced by slashes), artifact, version, artifact, then `artifact-version.jar`. -/
def maven_to_path (coordinate : String) : Option String :=
  match rustSplit ':' coordinate with
  | [group0, artifact, version] =>
    let group := rustReplaceChar '.' '/' group0
    some (group ++ "/" ++ artifact ++ "/" ++ version ++ "/" ++ artifact ++ "/"
      ++ artifact ++ "-" ++ version ++ ".jar")
  | _ => none

/-- Follows the spec's words (§4.1 step 1, §6, §8): the Maven layout path for
`g:a:v` is `g/a/v/a-v.jar` with dots in `g` replaced by path separators, and
a coordinate without exactly three colon-separated segments is a fatal input
error. Stated separately from `maven_to_path` so the two can be compared. -/
def spec_maven_path (coordinate : String) : Option String :=
  match rustSplit ':' coordinate with
  | [group0, artifact, version] =>
    some (rustReplaceChar '.' '/' group0 ++ "/" ++ artifact ++ "/" ++ version ++ "/"
      ++ artifact ++ "-" ++ version ++ ".jar")
  | _ => none

/-- Embeds the closure in `manifest_from_fabric` (manifest.rs lines 173-190)
that converts one overlay library. The Rust code computes `maven_to_path`
twice on the same name (for the `path` field and for the URL); both calls
return the same value, embedded once. A missing hash degrades to `""`, a
missing size to `1`; a panicking coordinate is `none`. -/
def convertFabricLibrary (lib : FabricManifestLibrary) : Option ManifestLibrary :=
  match maven_to_path lib.name with
  | none => none
  | some path =>
    let sha1 := lib.sha1.getD ""
    let size := lib.size.getD 1
    some
      { name := lib.name
        downloads :=
          { artifact := some
              { path := some path
                sha1 := sha1
                size := size
                url := lib.url ++ path } }
        rules := none }

/-- Embeds the `map`/`collect` over `fabric_manifest.libraries`; the panic on
the first malformed coordinate aborts the whole conversion, embedded as
`none`. -/
def convertFabricLibraries : List FabricManifestLibrary → Option (List ManifestLibrary)
  | [] => some []
  | lib :: rest =>
    match convertFabricLibrary lib with
    | none => none
    | some l =>
      match convertFabricLibraries rest with
      | none => none
      | some ls => some (l :: ls)

/-- Embeds `manifest.rs` fn `manifest_from_fabric`. The Rust function returns
`Result<Manifest, ManifestError>` but the only failure is the panic inside
`maven_to_path`, embedded as `none`. The `..base_manifest.clone()` update
fills every field not listed from the base manifest. -/
def manifest_from_fabric (fabric_manifest : FabricManifest) (base_manifest : Manifest) :
    Option Manifest :=
  match convertFabricLibraries fabric_manifest.libraries with
  | none => none
  | some fabric_libraries =>
    let combined_libraries := fabric_libraries ++ base_manifest.libraries
    let combined_game_args := base_manifest.arguments.game ++ fabric_manifest.arguments.game
    let combined_jvm_args := base_manifest.arguments.jvm ++ fabric_manifest.arguments.jvm
    some
      { base_manifest with
        arguments := { game := combined_game_args, jvm := combined_jvm_args }
        libraries := combined_libraries
        main_class := fabric_manifest.main_class
        release_time := fabric_manifest.release_time
        time := fabric_manifest.time
        type_ := fabric_manifest.type_ }

/-- Embeds `manifest_from_fabric` together with its `&mut Manifest` borrow as
explicit state passing: the second component is the value of the borrowed
base manifest when the function returns. Every access the Rust body makes to
`base_manifest` is a read (`.clone()` of the whole struct or of a field);
no statement assigns through the reference, so each branch returns the
borrow unchanged. -/
def manifest_from_fabric_mut (fabric_manifest : FabricManifest) (base_manifest : Manifest) :
    Option Manifest × Manifest :=
  match convertFabricLibraries fabric_manifest.libraries with
  | none => (none, base_manifest)
  | some fabric_libraries =>
    let combined_libraries := fabric_libraries ++ base_manifest.libraries
    let combined_game_args := base_manifest.arguments.game ++ fabric_manifest.arguments.game
    let combined_jvm_args := base_manifest.arguments.jvm ++ fabric_manifest.arguments.jvm
    (some
      { base_manifest with
        arguments := { game := combined_game_args, jvm := combined_jvm_args }
        libraries := combined_libraries
        main_class := fabric_manifest.main_class
        release_time := fabric_manifest.release_time
        time := fabric_manifest.time
        type_ := fabric_manifest.type_ },
     base_manifest)

/-- Embeds `client/verify.rs` enum `VerifyStatus`. -/
inductive VerifyStatus where
  | NotVerified : VerifyStatus
  | Failed : VerifyStatus
  | Ok : VerifyStatus
deriving DecidableEq

/-- A SHA-1 digest as produced by the external `chksum::sha1` crate: exactly
20 bytes. -/
def Digest : Type := { l : List (Fin 256) // l.length = 20 }

/-- The lowercase hex character for a value below 16 (`'0'`-`'9'`,
`'a'`-`'f'`). -/
def hexDigitLower (n : Nat) : Char :=
  if n < 10 then Char.ofNat (48 + n) else Char.ofNat (87 + n)

/-- One byte rendered as two lowercase hex characters. -/
def byteToHex (b : Fin 256) : List Char :=
  [hexDigitLower (b.val / 16), hexDigitLower (b.val % 16)]

/-- Embeds `Digest::to_hex_lowercase` of the `chksum` crate: the 40-character
lowercase hex rendering of the 20 digest bytes. -/
def Digest.toHexLowercase (d : Digest) : String :=
  ⟨(d.val.map byteToHex).flatten⟩

/-- Embeds Rust's `str::to_lowercase` for the ASCII range (sufficient for hex
digest strings). -/
def rust_to_lowercase (s : String) : String :=
  ⟨s.data.map Char.toLower⟩

/-- The error type of the external `chksum::sha1::chksum` call; any I/O
failure (missing file, permission denied, partial read) is some value of this
type. -/
inductive ChksumError where
  | ioError : String → ChksumError

/-- Embeds `client/verify.rs` fn `verify_file`. The external call
`sha1::chksum(&path)` is passed in as the `chksum` parameter (the collaborator
that reads and hashes the file at a path); the body is the `match` of the
source: on a digest, compare its lowercase hex against the lowercased
expected hash; on any error, `Failed`. -/
def verify_file (chksum : String → Except ChksumError Digest)
    (expected_hash : String) (path : String) : VerifyStatus :=
  match chksum path with
  | .ok digest =>
    if digest.toHexLowercase = rust_to_lowercase expected_hash then .Ok
    else .Failed
  | .error _ => .Failed

/-- Modelled from the spec: struct `DownloadData` lives in
`src/client/mod.rs`, which is not among the sources; the spec's Artifact
Descriptor (§3) is `{source_url, file_name, destination_path, expected_hash,
expected_size}`, and the field names below are the ones the struct literals in
`client_downloader.rs` use. -/
structure DownloadData where
  url : String
  file_name : String
  output_path : String
  sha1 : String
  total_size : Nat
deriving DecidableEq

/-- The last `/`-separated segment of a path string; embeds
`PathBuf::file_name` for the plain relative paths the planner builds. -/
def lastSegment (p : String) : String :=
  (rustSplit '/' p).getLastD ""

/-- Modelled from the spec: the `From<ManifestFile> for DownloadData` impl
lives in `src/client/mod.rs`, which is not among the sources. Per the spec's
Artifact Descriptor (§3), source URL, expected hash and expected size come
from the artifact reference. The spec fixes neither the file name nor the
destination for this conversion; the destination is overridden by the caller
in `download_by_manifest`, and the file name is taken as the URL's last path
segment. -/
def downloadDataFromArtifact (artifact : ManifestFile) : DownloadData :=
  { url := artifact.url
    file_name := lastSegment artifact.url
    output_path := ""
    sha1 := artifact.sha1
    total_size := artifact.size }

/-- One entry of the parsed asset index's `objects` map, as read by
`download_by_manifest` (the `hash` and `size` fields of each object). -/
structure AssetObject where
  hash : String
  size : Nat
deriving DecidableEq

/-- Embeds Rust's byte-slice `hash[..2]` on an ASCII hash string: panics
(`none`) when the string is shorter than two characters, otherwise the first
two characters. -/
def hashFirstTwo (hash : String) : Option String :=
  if hash.length < 2 then none else some ⟨hash.data.take 2⟩

/-- Embeds the per-object closure of the `Add assets` block of
`download_by_manifest` (client_downloader.rs lines 254-273): the CDN URL and
the destination are both built from the hash's first two characters, the
logical object name `p` is kept only as the file name, and the expected hash
is the object's hash itself. -/
def planAssetObject (objects_path : String) (p : String) (obj : AssetObject) :
    Option DownloadData :=
  match hashFirstTwo obj.hash with
  | none => none
  | some pre =>
    some
      { url := "https://resources.download.minecraft.net/" ++ pre ++ "/" ++ obj.hash
        file_name := p
        output_path := objects_path ++ "/" ++ pre ++ "/" ++ obj.hash
        sha1 := obj.hash
        total_size := obj.size }

/-- Embeds the `map`/`collect` over the asset index's `objects` entries; a
panic on any entry (hash shorter than two characters) aborts the whole
enumeration, embedded as `none`. -/
def planAssets (objects_path : String) : List (String × AssetObject) → Option (List DownloadData)
  | [] => some []
  | (p, obj) :: rest =>
    match planAssetObject objects_path p obj with
    | none => none
    | some d =>
      match planAssets objects_path rest with
      | none => none
      | some ds => some (d :: ds)

/-- Embeds the per-library closure of the `Add libraries` block of
`download_by_manifest` (client_downloader.rs lines 286-299): a library with
`downloads.artifact = None` yields no descriptor; otherwise the descriptor is
the artifact's conversion with the destination re-pointed under the
libraries root (extended by the artifact's `path` when present). The
library's `rules` field is never consulted. -/
def planLibrary (libraries_path : String) (l : ManifestLibrary) : Option DownloadData :=
  match l.downloads.artifact with
  | some artifact =>
    let path :=
      match artifact.path with
      | some p => libraries_path ++ "/" ++ p
      | none => libraries_path
    some { downloadDataFromArtifact artifact with output_path := path }
  | none => none

/-- Embeds the `version_path` defaulting at the start of
`download_by_manifest`: when no explicit path is given, it is
`<base>/versions/<id>/<id>.jar`. -/
def resolveVersionPath (base_bath : String) (m : Manifest) (version_path : Option String) :
    String :=
  match version_path with
  | some p => p
  | none => base_bath ++ "/versions/" ++ m.id ++ "/" ++ m.id ++ ".jar"

/-- Embeds the `Add client` block of `download_by_manifest`: the primary
client binary descriptor. -/
def planClient (m : Manifest) (version_path : String) : DownloadData :=
  { url := m.downloads.client.url
    file_name := lastSegment version_path
    output_path := version_path
    sha1 := m.downloads.client.sha1
    total_size := m.downloads.client.size }

/-- Embeds Rust's `i32 as u64` cast (sign extension then reinterpretation). -/
def i32_as_u64 (i : Int) : Nat :=
  (i % (2 ^ 64)).toNat

/-- Embeds the `Add asset index` block of `download_by_manifest`: the asset
index document descriptor, destination `<base>/assets/indexes/<id>.json`. -/
def planAssetIndex (m : Manifest) (base_bath : String) : DownloadData :=
  { url := m.asset_index.url
    file_name := m.asset_index.id ++ ".json"
    output_path := base_bath ++ "/assets/indexes/" ++ m.asset_index.id ++ ".json"
    sha1 := m.asset_index.sha1
    total_size := i32_as_u64 m.asset_index.size }

/-- Embeds the plan-building part of `download_by_manifest`
(client_downloader.rs lines 190-302): the `downloads` vector is filled in
source order — the client binary, then the asset index document, then one
descriptor per entry of the parsed asset index's `objects` map (the map is
passed in as `asset_objects`, its fetch being external I/O), then the
filtered libraries. A panic while slicing an asset hash aborts the plan
(`none`). -/
def download_plan (m : Manifest) (asset_objects : List (String × AssetObject))
    (base_bath : String) (version_path : Option String) : Option (List DownloadData) :=
  let vp := resolveVersionPath base_bath m version_path
  match planAssets (base_bath ++ "/assets" ++ "/objects") asset_objects with
  | none => none
  | some assets =>
    some ([planClient m vp, planAssetIndex m base_bath]
      ++ assets
      ++ m.libraries.filterMap (planLibrary (base_bath ++ "/libraries")))

/-- Modelled from the spec: enum `DownloadError` lives in `src/error.rs`,
which is not among the sources; the `DownloadDefinition` constructor with a
message string is the one `client_downloader.rs` uses. -/
inductive DownloadError where
  | DownloadDefinition : String → DownloadError
deriving DecidableEq

/-- Modelled from the spec: enum `ClientDownloaderError` lives in
`src/error.rs`, which is not among the sources; `NoSuchVersion` and
`Download` are the constructors `client_downloader.rs` uses. -/
inductive ClientDownloaderError where
  | NoSuchVersion : ClientDownloaderError
  | Download : DownloadError → ClientDownloaderError
deriving DecidableEq

/-- Modelled from the spec: struct `DownloadResult` lives in
`src/client/mod.rs`, which is not among the sources; the spec's Download
Result (§3) is `{descriptor, final_path, verification, bytes_transferred}`. -/
structure DownloadResult where
  descriptor : DownloadData
  final_path : String
  verification : VerifyStatus
  bytes_transferred : Nat
deriving DecidableEq

/-- Embeds the tail of `download_by_manifest` (client_downloader.rs lines
311-317): the engine's result list is inspected; an empty list becomes the
error `Download (DownloadDefinition "No Downloaded files")`, a non-empty list
is returned as success. -/
def download_by_manifest_result (results : List DownloadResult) :
    Except ClientDownloaderError (List DownloadResult) :=
  if results.isEmpty then
    .error (.Download (.DownloadDefinition "No Downloaded files"))
  else
    .ok results

/-- The current platform as the spec's rule evaluator sees it (§9: platform
name/arch, feature flags). -/
structure Platform where
  os_name : String
  os_arch : String
  os_version : String
  features : List String

/-- Follows the spec's words: one `os` constraint entry of a rule matches the
platform when its key names a platform attribute and the value agrees. -/
def osEntryMatches (plat : Platform) (kv : String × String) : Bool :=
  if kv.1 = "name" then kv.2 = plat.os_name
  else if kv.1 = "arch" then kv.2 = plat.os_arch
  else if kv.1 = "version" then kv.2 = plat.os_version
  else false

/-- Follows the spec's words: a feature constraint entry matches when the
required boolean agrees with whether the feature flag is enabled. -/
def featureEntryMatches (plat : Platform) (kv : String × Value) : Bool :=
  match kv.2 with
  | .bool b => plat.features.contains kv.1 = b
  | _ => false

/-- Follows the spec's words (§4.2 item 4, §9): a rule matches the current
platform when all of its `os` constraints and all of its feature constraints
hold; a rule without constraints matches every platform. -/
def spec_rule_matches (plat : Platform) (r : ManifestRule) : Bool :=
  (match r.os with
   | none => true
   | some kvs => kvs.all (osEntryMatches plat)) &&
  (match r.features with
   | none => true
   | some kvs => kvs.all (featureEntryMatches plat))

/-- Follows the spec's words (§4.2 item 4): a library is included unless it
has rules and the effective action of the last matching rule is
`"disallow"`; absence of rules means unconditional inclusion. -/
def spec_library_included (plat : Platform) (l : ManifestLibrary) : Bool :=
  match l.rules with
  | none => true
  | some rs =>
    match (rs.filter (spec_rule_matches plat)).getLast? with
    | none => true
    | some r => !(r.action = "disallow")

/-! Sample data used by the concrete witnesses below. -/

/-- A sample downloadable file reference. -/
def sampleFile : ManifestFile :=
  { path := some "base/lib/1/lib-1.jar", sha1 := "aa", size := 3, url := "https://h/lib-1.jar" }

/-- A sample base library without rules. -/
def sampleBaseLibrary : ManifestLibrary :=
  { downloads := { artifact := some sampleFile }, name := "base:lib:1", rules := none }

/-- A sample base manifest. -/
def sampleBase : Manifest :=
  { arguments := { game := [.str "g1"], jvm := [.str "j1"] }
    asset_index :=
      { id := "17", sha1 := "bb", size := 100, total_size := 2000, url := "https://h/17.json" }
    assets := "17"
    compliance_level := 1
    downloads :=
      { client := sampleFile, client_mappings := none, server := sampleFile
        server_mappings := none }
    id := "1.21"
    java_version := { component := "java-runtime-delta", major_version := 21 }
    libraries := [sampleBaseLibrary]
    main_class := "net.minecraft.client.main.Main"
    minimum_launcher_version := 21
    release_time := "2024-06-13"
    time := "2024-06-13"
    type_ := .Release }

/-- A sample overlay (Fabric) library. -/
def sampleFabricLibrary : FabricManifestLibrary :=
  { name := "net.fabricmc:fabric-loader:0.16"
    url := "https://maven.fabricmc.net/"
    sha1 := some "cc"
    size := some 7 }

/-- A sample overlay manifest. -/
def sampleFabric : FabricManifest :=
  { arguments := { game := [.str "g2"], jvm := [.str "j2"] }
    inherits_from := "1.21"
    id := "fabric-loader-0.16-1.21"
    libraries := [sampleFabricLibrary]
    main_class := "net.fabricmc.loader.impl.launch.knot.KnotClient"
    release_time := "2025-01-01"
    time := "2025-01-01"
    type_ := .Release }

/-- The merged manifest of the two samples (the merge succeeds, so `getD`
returns the merged value). -/
def sampleMerged : Manifest :=
  (manifest_from_fabric sampleFabric sampleBase).getD sampleBase

/-- A rule whose action is `"disallow"` and which carries no constraint, so
it matches every platform. -/
def disallowEverywhereRule : ManifestRule :=
  { action := "disallow", os := none, features := none }

/-- A library carrying a downloadable artifact but excluded on every platform
by its single always-matching disallow rule. -/
def disallowedLibrary : ManifestLibrary :=
  { downloads := { artifact := some sampleFile }
    name := "g:a:1"
    rules := some [disallowEverywhereRule] }

/-- A sample platform. -/
def linuxPlatform : Platform :=
  { os_name := "linux", os_arch := "x86_64", os_version := "6.0", features := [] }

/-! Helper lemmas shared by several claims. -/

/-- Converting one overlay library preserves its coordinate name. -/
theorem convertFabricLibrary_name {lib : FabricManifestLibrary} {l : ManifestLibrary}
    (h : convertFabricLibrary lib = some l) : l.name = lib.name := by
  unfold convertFabricLibrary at h
  cases hm : maven_to_path lib.name with
  | none => rw [hm] at h; exact absurd h (by simp)
  | some p =>
    rw [hm] at h
    simp only [Option.some.injEq] at h
    rw [← h]

/-- A successful conversion of an overlay library list keeps its length and
its coordinate names, in order. -/
theorem convertFabricLibraries_names :
    ∀ {libs : List FabricManifestLibrary} {ls : List ManifestLibrary},
      convertFabricLibraries libs = some ls →
      ls.length = libs.length ∧ ls.map (fun l => l.name) = libs.map (fun l => l.name)
  | [], ls, h => by
    unfold convertFabricLibraries at h
    simp only [Option.some.injEq] at h
    subst h
    exact ⟨rfl, rfl⟩
  | lib :: rest, ls, h => by
    unfold convertFabricLibraries at h
    cases h1 : convertFabricLibrary lib with
    | none => rw [h1] at h; exact absurd h (by simp)
    | some l =>
      rw [h1] at h
      cases h2 : convertFabricLibraries rest with
      | none => rw [h2] at h; exact absurd h (by simp)
      | some tl =>
        rw [h2] at h
        simp only [Option.some.injEq] at h
        subst h
        have ih := convertFabricLibraries_names h2
        refine ⟨by simp [ih.1], ?_⟩
        simp only [List.map_cons, ih.2, convertFabricLibrary_name h1]

/-- A successful asset enumeration yields exactly one descriptor per object
entry. -/
theorem planAssets_length :
    ∀ {op : String} {objs : List (String × AssetObject)} {ds : List DownloadData},
      planAssets op objs = some ds → ds.length = objs.length
  | _, [], ds, h => by
    unfold planAssets at h
    simp only [Option.some.injEq] at h
    subst h
    rfl
  | op, (p, obj) :: rest, ds, h => by
    unfold planAssets at h
    cases h1 : planAssetObject op p obj with
    | none => rw [h1] at h; exact absurd h (by simp)
    | some d =>
      rw [h1] at h
      cases h2 : planAssets op rest with
      | none => rw [h2] at h; exact absurd h (by simp)
      | some tl =>
        rw [h2] at h
        simp only [Option.some.injEq] at h
        subst h
        simp [planAssets_length h2]

/-! The claims. -/

/-- C1: the claim says the derived storage path for a coordinate `g:a:v` is
`g/a/v/a-v.jar` with dots in `g` replaced by `/`. The code's format string
inserts the artifact a second time, producing `g/a/v/a/a-v.jar`: at the
coordinate `a.b:c:1` the code yields `a/b/c/1/c/c-1.jar` while the spec's
layout (`spec_maven_path`, the standard Maven layout the download URLs need)
yields `a/b/c/1/c-1.jar`, and the two differ. -/
theorem maven_to_path_extra_segment :
    maven_to_path "a.b:c:1" = some "a/b/c/1/c/c-1.jar" ∧
    spec_maven_path "a.b:c:1" = some "a/b/c/1/c-1.jar" ∧
    maven_to_path "a.b:c:1" ≠ spec_maven_path "a.b:c:1" := by
  refine ⟨rfl, rfl, ?_⟩
  decide

/-- C2 counterexample: `disallowedLibrary` carries a downloadable artifact
and a single rule with no constraint and action `"disallow"`; its rules
exclude it on every platform (here: the sample Linux platform, under the
spec's own rule evaluation), yet the planner still produces a descriptor for
it — refuting the claim that such a library produces no artifact
descriptor. -/
theorem planLibrary_plans_disallowed_library :
    spec_library_included linuxPlatform disallowedLibrary = false ∧
    (planLibrary "root/libraries" disallowedLibrary).isSome = true := by
  exact ⟨rfl, rfl⟩

/-- C2 amended: when the planner enumerates libraries, a library produces a
descriptor exactly when it carries a downloadable artifact; the library's
`rules` field is never consulted, so changing the rules (in particular
attaching rules whose last matching rule on the current platform says
`"disallow"`) never changes the produced descriptor. -/
theorem planLibrary_iff_artifact :
    ∀ (p : String) (l : ManifestLibrary),
      (planLibrary p l).isSome = l.downloads.artifact.isSome ∧
      ∀ r : Option (List ManifestRule),
        planLibrary p { l with rules := r } = planLibrary p l := by
  intro p l
  constructor
  · cases h : l.downloads.artifact <;> simp [planLibrary, h]
  · intro r
    cases l with
    | mk downloads name rules => rfl

/-- C3: for every base and overlay manifest pair on which the merge succeeds,
the merged library list is exactly the converted overlay libraries followed
by the base libraries: every overlay library precedes every base library,
relative order within each group is preserved (the converted list carries the
overlay coordinates in order), and no library is dropped or duplicated (the
name lists concatenate exactly). -/
theorem manifest_from_fabric_library_order (f : FabricManifest) (b : Manifest) (m : Manifest)
    (h : manifest_from_fabric f b = some m) :
    ∃ libs, convertFabricLibraries f.libraries = some libs ∧
      m.libraries = libs ++ b.libraries ∧
      libs.length = f.libraries.length ∧
      m.libraries.map (fun l => l.name)
        = f.libraries.map (fun l => l.name) ++ b.libraries.map (fun l => l.name) := by
  unfold manifest_from_fabric at h
  cases hc : convertFabricLibraries f.libraries with
  | none => rw [hc] at h; exact absurd h (by simp)
  | some libs =>
    rw [hc] at h
    simp only [Option.some.injEq] at h
    subst h
    have hn := convertFabricLibraries_names hc
    exact ⟨libs, rfl, rfl, hn.1, by simp [hn.2]⟩

/-- C3 witness: the sample merge, evaluated concretely. -/
theorem manifest_from_fabric_library_order_witness :
    ∃ libs, convertFabricLibraries sampleFabric.libraries = some libs ∧
      sampleMerged.libraries = libs ++ sampleBase.libraries ∧
      libs.length = sampleFabric.libraries.length ∧
      sampleMerged.libraries.map (fun l => l.name)
        = sampleFabric.libraries.map (fun l => l.name)
          ++ sampleBase.libraries.map (fun l => l.name) :=
  manifest_from_fabric_library_order sampleFabric sampleBase sampleMerged rfl

/-- C7: whenever the merge of a base with an overlay manifest succeeds, the
merged manifest's entry point (main class), timestamps (time and release
time) and version kind are the overlay's values. -/
theorem manifest_from_fabric_overlay_fields (f : FabricManifest) (b : Manifest) (m : Manifest)
    (h : manifest_from_fabric f b = some m) :
    m.main_class = f.main_class ∧ m.release_time = f.release_time ∧
    m.time = f.time ∧ m.type_ = f.type_ := by
  unfold manifest_from_fabric at h
  cases hc : convertFabricLibraries f.libraries with
  | none => rw [hc] at h; exact absurd h (by simp)
  | some libs =>
    rw [hc] at h
    simp only [Option.some.injEq] at h
    subst h
    exact ⟨rfl, rfl, rfl, rfl⟩

/-- C7 witness: the sample merge, evaluated concretely. -/
theorem manifest_from_fabric_overlay_fields_witness :
    sampleMerged.main_class = sampleFabric.main_class ∧
    sampleMerged.release_time = sampleFabric.release_time ∧
    sampleMerged.time = sampleFabric.time ∧
    sampleMerged.type_ = sampleFabric.type_ :=
  manifest_from_fabric_overlay_fields sampleFabric sampleBase sampleMerged rfl

/-- C9: the merger, embedded with its `&mut` borrow as explicit state
passing, hands the borrowed base manifest back unchanged in every case (so
every field of the caller's base manifest equals its value before the call)
and its result component is exactly the pure merge function of the two
inputs; as a plain Lean function of its inputs it performs no I/O. -/
theorem manifest_from_fabric_mut_frame (f : FabricManifest) (b : Manifest) :
    manifest_from_fabric_mut f b = (manifest_from_fabric f b, b) := by
  unfold manifest_from_fabric_mut manifest_from_fabric
  cases hc : convertFabricLibraries f.libraries <;> simp [hc]

/-- The hex rendering of a byte list has twice its length. -/
theorem flatten_byteToHex_length (l : List (Fin 256)) :
    ((l.map byteToHex).flatten).length = 2 * l.length := by
  induction l with
  | nil => rfl
  | cons b t ih =>
    simp only [List.map_cons, List.flatten_cons, List.length_append, ih, byteToHex,
      List.length_cons, List.length_nil]
    omega

/-- A digest's lowercase hex rendering has exactly 40 characters. -/
theorem toHexLowercase_length (d : Digest) : (Digest.toHexLowercase d).length = 40 := by
  show ((d.val.map byteToHex).flatten).length = 40
  rw [flatten_byteToHex_length, d.property]

/-- Lowercasing a hex digit below 16 is the identity. -/
theorem hexDigitLower_toLower {n : Nat} (h : n < 16) :
    Char.toLower (hexDigitLower n) = hexDigitLower n := by
  interval_cases n <;> rfl

/-- Lowercasing the two hex characters of a byte is the identity. -/
theorem byteToHex_toLower (b : Fin 256) : (byteToHex b).map Char.toLower = byteToHex b := by
  have hb := b.isLt
  have h1 : b.val / 16 < 16 := by omega
  have h2 : b.val % 16 < 16 := by omega
  simp [byteToHex, hexDigitLower_toLower h1, hexDigitLower_toLower h2]

/-- A digest's hex rendering is already lowercase: Rust's `to_lowercase`
leaves it unchanged. -/
theorem rust_to_lowercase_toHex (d : Digest) :
    rust_to_lowercase (Digest.toHexLowercase d) = Digest.toHexLowercase d := by
  have hlist : ((d.val.map byteToHex).flatten).map Char.toLower
      = (d.val.map byteToHex).flatten := by
    rw [List.map_flatten, List.map_map]
    have hf : List.map Char.toLower ∘ byteToHex = byteToHex := funext byteToHex_toLower
    rw [hf]
  exact congrArg String.mk hlist

/-- C4: for every expected-hash string and every path, whenever the external
read-and-hash collaborator fails on that path (missing file, permission
denied, partial read — any error value), `verify_file` returns `Failed`; the
error is consumed by the `match`, never propagated, and the function is total
so it cannot crash. -/
theorem verify_file_error_failed (chksum : String → Except ChksumError Digest)
    (expected_hash path : String) (e : ChksumError) (h : chksum path = .error e) :
    verify_file chksum expected_hash path = .Failed := by
  unfold verify_file
  rw [h]

/-- A hasher that fails on every path, as on a missing file. -/
def failingChksum : String → Except ChksumError Digest :=
  fun _ => .error (.ioError "missing file")

/-- C4 witness: a concrete failing read yields `Failed`. -/
theorem verify_file_error_failed_witness :
    verify_file failingChksum "abc" "store/missing.jar" = .Failed :=
  verify_file_error_failed failingChksum "abc" "store/missing.jar"
    (.ioError "missing file") rfl

/-- C5: whenever the external read-and-hash collaborator succeeds with digest
`d`, `verify_file` returns `Ok` exactly when the computed hash's hex
rendering equals the expected hash under case-insensitive comparison (both
sides lowercased); and with an empty expected hash it never returns `Ok`,
since the computed rendering always has 40 characters. -/
theorem verify_file_ok_iff (chksum : String → Except ChksumError Digest)
    (expected_hash path : String) (d : Digest) (h : chksum path = .ok d) :
    (verify_file chksum expected_hash path = .Ok ↔
      rust_to_lowercase (Digest.toHexLowercase d) = rust_to_lowercase expected_hash) ∧
    (expected_hash = "" → verify_file chksum expected_hash path ≠ .Ok) := by
  have hval : verify_file chksum expected_hash path =
      if Digest.toHexLowercase d = rust_to_lowercase expected_hash then VerifyStatus.Ok
      else VerifyStatus.Failed := by
    unfold verify_file
    rw [h]
  constructor
  · rw [hval, rust_to_lowercase_toHex d]
    by_cases hc : Digest.toHexLowercase d = rust_to_lowercase expected_hash
    · simp [hc]
    · simp [hc]
  · intro he hcon
    rw [hval] at hcon
    by_cases hc : Digest.toHexLowercase d = rust_to_lowercase expected_hash
    · subst he
      have hlen := toHexLowercase_length d
      rw [hc] at hlen
      exact absurd hlen (by decide)
    · rw [if_neg hc] at hcon
      exact absurd hcon (by decide)

/-- The all-zero 20-byte digest. -/
def zeroDigest : Digest :=
  ⟨List.replicate 20 0, by simp⟩

/-- A hasher that succeeds with the all-zero digest on every path. -/
def okChksum : String → Except ChksumError Digest :=
  fun _ => .ok zeroDigest

/-- C5 witness: at a concrete readable file and the empty expected hash, the
equivalence holds and the verdict is not `Ok`. -/
theorem verify_file_ok_iff_witness :
    (verify_file okChksum "" "store/f.jar" = .Ok ↔
      rust_to_lowercase (Digest.toHexLowercase zeroDigest) = rust_to_lowercase "") ∧
    verify_file okChksum "" "store/f.jar" ≠ .Ok :=
  ⟨(verify_file_ok_iff okChksum "" "store/f.jar" zeroDigest rfl).1,
   (verify_file_ok_iff okChksum "" "store/f.jar" zeroDigest rfl).2 rfl⟩

/-- C6: when the engine's result list is empty, `download_by_manifest`
returns the empty-result error (`Download (DownloadDefinition "No Downloaded
files")`) instead of the empty list; every non-empty result list is returned
as success, unchanged. -/
theorem download_by_manifest_result_empty_error :
    download_by_manifest_result [] =
      .error (.Download (.DownloadDefinition "No Downloaded files")) ∧
    ∀ rs : List DownloadResult, rs ≠ [] → download_by_manifest_result rs = .ok rs := by
  refine ⟨rfl, ?_⟩
  intro rs h
  cases rs with
  | nil => exact absurd rfl h
  | cons a t => rfl

/-- A sample completed download result. -/
def sampleDownloadResult : DownloadResult :=
  { descriptor := planClient sampleBase "root/versions/1.21/1.21.jar"
    final_path := "root/versions/1.21/1.21.jar"
    verification := .Ok
    bytes_transferred := 3 }

/-- C6 witness: a concrete one-element result list is returned as success. -/
theorem download_by_manifest_result_empty_error_witness :
    download_by_manifest_result [sampleDownloadResult] = .ok [sampleDownloadResult] :=
  download_by_manifest_result_empty_error.2 [sampleDownloadResult] (by decide)

/-- C8: every successfully built plan is, in order, the client binary
descriptor, then the asset index document descriptor, then one descriptor per
object entry of the parsed asset index (as many as there are entries, in
their order), then the library descriptors. -/
theorem download_plan_order (m : Manifest) (objs : List (String × AssetObject))
    (bp : String) (vp : Option String) (l : List DownloadData)
    (h : download_plan m objs bp vp = some l) :
    ∃ assets, planAssets (bp ++ "/assets" ++ "/objects") objs = some assets ∧
      assets.length = objs.length ∧
      l = planClient m (resolveVersionPath bp m vp) :: planAssetIndex m bp ::
        (assets ++ m.libraries.filterMap (planLibrary (bp ++ "/libraries"))) := by
  unfold download_plan at h
  cases hc : planAssets (bp ++ "/assets" ++ "/objects") objs with
  | none =>
    rw [hc] at h
    exact absurd h (by simp)
  | some assets =>
    rw [hc] at h
    simp only [Option.some.injEq] at h
    subst h
    exact ⟨assets, rfl, planAssets_length hc, rfl⟩

/-- A sample parsed asset index with one object entry. -/
def sampleObjects : List (String × AssetObject) :=
  [("minecraft/sounds/x.ogg", { hash := "ab12cd", size := 5 })]

/-- The plan for the sample manifest and sample asset index (the plan
succeeds, so `getD` returns it). -/
def samplePlan : List DownloadData :=
  (download_plan sampleBase sampleObjects "root" none).getD []

/-- C8 witness: the sample plan, evaluated concretely. -/
theorem download_plan_order_witness :
    ∃ assets, planAssets ("root" ++ "/assets" ++ "/objects") sampleObjects = some assets ∧
      assets.length = sampleObjects.length ∧
      samplePlan = planClient sampleBase (resolveVersionPath "root" sampleBase none) ::
        planAssetIndex sampleBase "root" ::
        (assets ++ sampleBase.libraries.filterMap (planLibrary ("root" ++ "/libraries"))) :=
  download_plan_order sampleBase sampleObjects "root" none samplePlan rfl

/-- C10: planning the per-object asset descriptors is total exactly under the
precondition that every object's hash has at least two characters: when all
hashes are that long the enumeration produces a descriptor list, and when any
object's hash is shorter than two characters the enumeration aborts (the
embedded `hash[..2]` panic) instead of producing a list. -/
theorem planAssets_total_iff_hashes_long_enough (op : String)
    (objs : List (String × AssetObject)) :
    ((∀ po ∈ objs, 2 ≤ po.2.hash.length) → ∃ ds, planAssets op objs = some ds) ∧
    ((∃ po ∈ objs, po.2.hash.length < 2) → planAssets op objs = none) := by
  induction objs with
  | nil =>
    refine ⟨fun _ => ⟨[], rfl⟩, fun hex => ?_⟩
    obtain ⟨po, hmem, _⟩ := hex
    exact absurd hmem (by simp)
  | cons hd tl ih =>
    obtain ⟨p, obj⟩ := hd
    constructor
    · intro hall
      have h2' : 2 ≤ obj.hash.length := hall (p, obj) (List.mem_cons_self _ _)
      have h2 : ¬ obj.hash.length < 2 := by omega
      obtain ⟨ds, hds⟩ := ih.1 fun po hmem => hall po (List.mem_cons_of_mem _ hmem)
      obtain ⟨d0, hobj⟩ : ∃ d0, planAssetObject op p obj = some d0 := by
        unfold planAssetObject hashFirstTwo
        rw [if_neg h2]
        exact ⟨_, rfl⟩
      refine ⟨d0 :: ds, ?_⟩
      unfold planAssets
      rw [hobj, hds]
    · intro hex
      obtain ⟨po, hmem, hlt⟩ := hex
      rcases List.mem_cons.mp hmem with heq | hmem2
      · subst heq
        have hobj : planAssetObject op p obj = none := by
          unfold planAssetObject hashFirstTwo
          rw [if_pos hlt]
        unfold planAssets
        rw [hobj]
      · have htl : planAssets op tl = none := ih.2 ⟨po, hmem2, hlt⟩
        unfold planAssets
        cases hobj : planAssetObject op p obj with
        | none => rfl
        | some d => rw [htl]

/-- A one-entry asset index whose hash is long enough. -/
def goodObjects : List (String × AssetObject) :=
  [("a", { hash := "ab12", size := 1 })]

/-- A one-entry asset index whose hash has a single character. -/
def badObjects : List (String × AssetObject) :=
  [("b", { hash := "f", size := 1 })]

/-- C10 witness: a concrete long-enough index plans successfully, and a
concrete one-character hash aborts the enumeration. -/
theorem planAssets_total_iff_hashes_long_enough_witness :
    (∃ ds, planAssets "root/assets/objects" goodObjects = some ds) ∧
    planAssets "root/assets/objects" badObjects = none :=
  ⟨(planAssets_total_iff_hashes_long_enough "root/assets/objects" goodObjects).1 (by decide),
   (planAssets_total_iff_hashes_long_enough "root/assets/objects" badObjects).2
     ⟨("b", { hash := "f", size := 1 }), by decide, by decide⟩⟩

end Downloader
